import Mathlib

/-!
Verification of `learned_optimization/tasks/fixed/conv.py`: a shallow
embedding of the convolutional task module (the layer-composition function
`_cross_entropy_pool_loss`, the `_ConvTask` wrapper and the two CIFAR-10
factories), with theorems settling the specification's claims about it.

Python exceptions are modelled with `Except String`; jax/haiku numeric
primitives are embedded as real-valued tensor functions; the convolution
kernel itself is an external collaborator and is taken as an argument.
-/

namespace ConvNet

/-- Rank-4 tensor (batch × height × width × channels), as jnp arrays are
indexed in this module. -/
structure Tensor4 where
  batch : ℕ
  height : ℕ
  width : ℕ
  channels : ℕ
  data : ℕ → ℕ → ℕ → ℕ → ℝ

/-- Rank-2 tensor (batch × features). -/
structure Tensor2 where
  batch : ℕ
  features : ℕ
  data : ℕ → ℕ → ℝ

/-- Rank-1 tensor (a vector of per-example values). -/
structure Tensor1 where
  len : ℕ
  data : ℕ → ℝ

/-- A data batch: a mapping with keys "image" (rank-4 tensor) and "label"
(integer class index per example). -/
structure Batch where
  image : Tensor4
  label : ℕ → ℕ

noncomputable section

/-- Maximum of a list of reals, folding from the head; the value jnp.max
produces on a nonempty axis (0 is the junk value of an empty reduction). -/
def listMax : List ℝ → ℝ
  | [] => 0
  | x :: xs => xs.foldl max x

/-- Embedding of jnp.mean(net, [1, 2]): mean over both spatial axes at once,
one value per (example, channel). -/
def jnp_mean_axes12 (t : Tensor4) : Tensor2 :=
  ⟨t.batch, t.channels, fun b c =>
    (∑ h ∈ Finset.range t.height, ∑ w ∈ Finset.range t.width, t.data b h w c) /
      ((t.height * t.width : ℕ) : ℝ)⟩

/-- Embedding of jnp.max(net, [1, 2]): elementwise maximum over both spatial
axes at once, one value per (example, channel). -/
def jnp_max_axes12 (t : Tensor4) : Tensor2 :=
  ⟨t.batch, t.channels, fun b c =>
    listMax ((List.range t.height).flatMap fun h =>
      (List.range t.width).map fun w => t.data b h w c)⟩

/-- Embedding of jnp.mean over a rank-1 tensor. -/
def jnp_mean1 (v : Tensor1) : ℝ :=
  (∑ i ∈ Finset.range v.len, v.data i) / ((v.len : ℕ) : ℝ)

/-- Embedding of jnp.clip(x, a_min, a_max). -/
def jnp_clip (x lo hi : ℝ) : ℝ := min (max x lo) hi

/-- Embedding of jax.nn.relu applied elementwise to a rank-4 tensor. -/
def jax_nn_relu (t : Tensor4) : Tensor4 :=
  { t with data := fun b h w c => max (t.data b h w c) 0 }

/-- Parameters of an hk.Linear layer: weight matrix (input feature × output
unit) and bias. -/
structure LinearParams where
  w : ℕ → ℕ → ℝ
  b : ℕ → ℝ

/-- Embedding of hk.Linear(num_classes) applied to a rank-2 tensor: an affine
map from the pooled feature vector to num_classes logits. -/
def hk_Linear (num_classes : ℕ) (p : LinearParams) (t : Tensor2) : Tensor2 :=
  ⟨t.batch, num_classes, fun i j =>
    (∑ c ∈ Finset.range t.features, t.data i c * p.w c j) + p.b j⟩

/-- Embedding of jax.nn.one_hot(label, num_classes) for a label vector of
length B: entry (i, j) is 1 exactly when label i = j (rows of out-of-range
labels are all zero, as in jax). -/
def jax_nn_one_hot (label : ℕ → ℕ) (B num_classes : ℕ) : Tensor2 :=
  ⟨B, num_classes, fun i j => if label i = j then (1 : ℝ) else 0⟩

/-- Modelled from the spec: `learned_optimization.tasks.base.softmax_cross_entropy`
is not under src/. Per the spec it computes the per-example cross-entropy
between one-hot-encoded labels and the logits (softmax cross-entropy,
summed over the class axis of the logits). -/
def softmax_cross_entropy (labels logits : Tensor2) : Tensor1 :=
  ⟨logits.batch, fun i =>
    -∑ j ∈ Finset.range logits.features,
      labels.data i j *
        (logits.data i j -
          Real.log (∑ k ∈ Finset.range logits.features, Real.exp (logits.data i k)))⟩

/-- Loop of `_fn` building the stack of hk.Conv2D layers with activations,
polymorphic in the tensor representation: `conv2d hs ks stride` stands for
hk.Conv2D(hs, ks, stride=stride) with its parameters bound.  As in the
source, every kernel size is 3 and the stride list is
[2] + [1] * (len(hidden_units) - 1), zipped with the hidden units. -/
def conv_stack {T : Type} (conv2d : ℕ → ℕ → ℕ → T → T) (activation_fn : T → T)
    (hidden_units : List ℕ) (net0 : T) : T :=
  let strides := [2] ++ List.replicate (hidden_units.length - 1) 1
  (hidden_units.zip ((List.replicate hidden_units.length 3).zip strides)).foldl
    (fun net p => activation_fn (conv2d p.1 p.2.1 p.2.2 net)) net0

/-- Body of the closure `_fn` returned by `_cross_entropy_pool_loss`, with the
external numeric collaborators (convolution kernels, linear-layer parameters)
passed explicitly; the ValueError raised on an unsupported pool value is
modelled as `Except.error`. -/
def fn_apply (conv2d : ℕ → ℕ → ℕ → Tensor4 → Tensor4)
    (activation_fn : Tensor4 → Tensor4) (hidden_units : List ℕ)
    (pool : String) (num_classes : ℕ) (linear : LinearParams)
    (batch : Batch) : Except String ℝ :=
  let net := conv_stack conv2d activation_fn hidden_units batch.image
  (if pool = "avg" then Except.ok (jnp_mean_axes12 net)
   else if pool = "max" then Except.ok (jnp_max_axes12 net)
   else Except.error "pool type not supported").map fun pooled =>
    let logits := hk_Linear num_classes linear pooled
    let labels := jax_nn_one_hot batch.label batch.image.batch num_classes
    let loss_vec := softmax_cross_entropy labels logits
    jnp_mean1 loss_vec

/-- An hk initializers mapping; only its truthiness is ever consulted by the
source, so its entries are left opaque. -/
abbrev Initializers := List (String × String)

/-- Configuration captured by the closure `_fn` that `_cross_entropy_pool_loss`
returns. -/
structure ModelFn where
  hidden_units : List ℕ
  activation_fn : Tensor4 → Tensor4
  initializers : Initializers
  pool : String
  num_classes : ℕ

/-- Embedding of `if not initializers: initializers = {}` at the top of
`_cross_entropy_pool_loss` (None and the empty mapping are both falsy). -/
def normalize_initializers : Option Initializers → Initializers
  | none => []
  | some i => if i = [] then [] else i

/-- Embedding of `_cross_entropy_pool_loss`: binds the arguments (defaults as
in the source signature), normalizes `initializers`, and returns the closure
configuration; the body of `_fn` is not evaluated here. -/
def cross_entropy_pool_loss (hidden_units : List ℕ)
    (activation_fn : Tensor4 → Tensor4)
    (initializers : Option Initializers := none)
    (pool : String := "avg") (num_classes : ℕ := 10) : ModelFn :=
  { hidden_units := hidden_units
    activation_fn := activation_fn
    initializers := normalize_initializers initializers
    pool := pool
    num_classes := num_classes }

/-- Invoking the closure `_fn` held by a `ModelFn` on a batch (the external
convolution kernels and linear parameters supplied alongside); note the
`initializers` field is not consulted. -/
def ModelFn.apply (m : ModelFn) (conv2d : ℕ → ℕ → ℕ → Tensor4 → Tensor4)
    (linear : LinearParams) (batch : Batch) : Except String ℝ :=
  fn_apply conv2d m.activation_fn m.hidden_units m.pool m.num_classes linear batch

/-- Call-level semantics of `_cross_entropy_pool_loss`: its body performs no
raise (the ValueError sits inside `_fn`), so the call itself always returns
normally; `Except` records whether an exception escapes the call. -/
def cross_entropy_pool_loss_call (hidden_units : List ℕ)
    (activation_fn : Tensor4 → Tensor4) (initializers : Option Initializers)
    (pool : String) (num_classes : ℕ) : Except String ModelFn :=
  Except.ok (cross_entropy_pool_loss hidden_units activation_fn initializers pool num_classes)

/-- A Dataset Source: train stream (position → batch, the iterator's
underlying sequence), configuration, and extra_info["num_classes"]. -/
structure Datasets where
  name : String
  batch_size : ℕ
  image_size : ℕ × ℕ
  num_classes : ℕ
  train : ℕ → Batch

/-- Modelled from the spec: `learned_optimization.tasks.datasets.image` is not
under src/. `image.cifar10_datasets(batch_size, image_size)` returns a
CIFAR-10 Dataset Source with 10 classes at the requested resolution (native
resolution 32×32 when none is requested); the stream contents are external
data and are passed in. -/
def cifar10_datasets (train : ℕ → Batch) (batch_size : ℕ)
    (image_size : ℕ × ℕ := (32, 32)) : Datasets :=
  ⟨"cifar10", batch_size, image_size, 10, train⟩

/-- Parameters of the transformed conv model, as `init` returns them and
`apply` consumes them: each hk.Conv2D layer as a pure function with its
weights bound (an external numeric collaborator), plus the hk.Linear
parameters. -/
structure ConvParams where
  conv2d : ℕ → ℕ → ℕ → Tensor4 → Tensor4
  linear : LinearParams

/-- A `_ConvTask` object: `__init__` stores hk.transform(base_model_fn) (the
`ModelFn` it wraps) and the datasets; nothing else. -/
structure ConvTask where
  base_model_fn : ModelFn
  datasets : Datasets

/-- Mutable state a `_ConvTask` touches across calls: the position of the
train-stream iterator (everything else is fixed at construction). -/
structure TaskState where
  iter_pos : ℕ

/-- Shape of a batch, all that hk.transform's init may consult about its
example input. -/
def batchShape (b : Batch) : ℕ × ℕ × ℕ × ℕ :=
  (b.image.batch, b.image.height, b.image.width, b.image.channels)

/-- Embedding of `_ConvTask.__init__(base_model_fn, datasets)`: stores the
transformed model and the datasets.  The body can raise nothing, recorded by
always returning `Except.ok`. -/
def ConvTask.construct (base_model_fn : ModelFn) (datasets : Datasets) :
    Except String ConvTask :=
  Except.ok ⟨base_model_fn, datasets⟩

/-- Modelled from the spec: hk.transform(base_model_fn).init traces the model
function on the example batch purely to discover parameter shapes, so it is a
function of the key and `batchShape` of the batch; the policy filling the
tensors is abstract here, `_ConvTask.init` passes it in.
Embedding of `_ConvTask.init(key) = self._mod.init(key, next(self.datasets.train))`:
draws the next batch (advancing the iterator by one) and initializes. -/
def ConvTask.init (t : ConvTask)
    (mod_init : ℕ → (ℕ × ℕ × ℕ × ℕ) → ConvParams)
    (key : ℕ) (s : TaskState) : ConvParams × TaskState :=
  (mod_init key (batchShape (t.datasets.train s.iter_pos)), ⟨s.iter_pos + 1⟩)

/-- Modelled from the spec: hk.transform(base_model_fn).apply evaluates `_fn`
on the data with the parameters bound to the declared layers; the rng key is
unused (the conv model has no stochastic layers). -/
def hk_transform_apply (m : ModelFn) (p : ConvParams) (_key : ℕ)
    (data : Batch) : Except String ℝ :=
  m.apply p.conv2d p.linear data

/-- Embedding of `_ConvTask.loss(params, key, data) = self._mod.apply(params, key, data)`:
a pure call; the task state is passed through untouched. -/
def ConvTask.loss (t : ConvTask) (params : ConvParams) (key : ℕ)
    (data : Batch) (s : TaskState) : Except String ℝ × TaskState :=
  (hk_transform_apply t.base_model_fn params key data, s)

/-- Embedding of `_ConvTask.normalizer(loss)`:
jnp.clip(loss, 0, 1.5 * jnp.log(self.datasets.extra_info["num_classes"])). -/
def ConvTask.normalizer (t : ConvTask) (loss : ℝ) : ℝ :=
  jnp_clip loss 0 (1.5 * Real.log (t.datasets.num_classes : ℝ))

/-- Specification-side loss pipeline (spec §4.1, steps 4–6), written from the
spec's words: pool the final feature map over both spatial axes into one
vector per example (mean for "avg", elementwise maximum otherwise), apply the
final linear layer to produce num_classes logits, one-hot encode the labels
against exactly num_classes categories, take the per-example softmax
cross-entropy between those labels and the logits, and return the mean over
the batch. -/
def spec_pool_loss (pool : String) (num_classes : ℕ) (linear : LinearParams)
    (label : ℕ → ℕ) (feature : Tensor4) : ℝ :=
  let pooled : ℕ → ℕ → ℝ := fun b c =>
    if pool = "avg" then
      (∑ h ∈ Finset.range feature.height, ∑ w ∈ Finset.range feature.width,
        feature.data b h w c) / ((feature.height * feature.width : ℕ) : ℝ)
    else
      listMax ((List.range feature.height).flatMap fun h =>
        (List.range feature.width).map fun w => feature.data b h w c)
  let logits : ℕ → ℕ → ℝ := fun b j =>
    (∑ c ∈ Finset.range feature.channels, pooled b c * linear.w c j) + linear.b j
  let onehot : ℕ → ℕ → ℝ := fun b j => if label b = j then (1 : ℝ) else 0
  let ce : ℕ → ℝ := fun b =>
    -∑ j ∈ Finset.range num_classes,
      onehot b j *
        (logits b j - Real.log (∑ k ∈ Finset.range num_classes, Real.exp (logits b k)))
  (∑ b ∈ Finset.range feature.batch, ce b) / ((feature.batch : ℕ) : ℝ)

/-- Embedding of the Python keyword call
`_cross_entropy_pool_loss(hidden_units, activation_fn, num_classes=nc)` made
by both factories: initializers and pool keep their signature defaults. -/
def cross_entropy_pool_loss_kw_nc (hidden_units : List ℕ)
    (activation_fn : Tensor4 → Tensor4) (nc : ℕ) : ModelFn :=
  { cross_entropy_pool_loss hidden_units activation_fn with num_classes := nc }

/-- Embedding of the factory `Conv_Cifar10_16_32x64x64` (the external
CIFAR-10 train stream is a parameter; the source obtains it from the dataset
pipeline): the 3-hidden-layer convnet for 16×16 CIFAR-10. -/
def Conv_Cifar10_16_32x64x64 (train : ℕ → Batch) : ConvTask :=
  let base_model_fn := cross_entropy_pool_loss_kw_nc [32, 64, 64] jax_nn_relu 10
  let datasets := cifar10_datasets train 128 (16, 16)
  ⟨base_model_fn, datasets⟩

/-- Embedding of the factory `Conv_Cifar10_32x64x64`: the 3-hidden-layer
convnet for 32×32 CIFAR-10 (image_size left to its default). -/
def Conv_Cifar10_32x64x64 (train : ℕ → Batch) : ConvTask :=
  let base_model_fn := cross_entropy_pool_loss_kw_nc [32, 64, 64] jax_nn_relu 10
  let datasets := cifar10_datasets train 128
  ⟨base_model_fn, datasets⟩

end

/-- Markers recording, in order, the layer applications the conv stack
performs. -/
inductive LayerOp where
  | conv2d (features kernel stride : ℕ)
  | act
  deriving DecidableEq

/-- Trace semantics of the conv stack: run `conv_stack` over the free tensor
type that records each hk.Conv2D application and each activation in order. -/
def layer_trace (hidden_units : List ℕ) : List LayerOp :=
  conv_stack (fun hs ks s t => t ++ [LayerOp.conv2d hs ks s])
    (fun t => t ++ [LayerOp.act]) hidden_units []

/-- Specification-side trace: one kernel-3 convolution per entry of
hidden_units, in order, with stride 2 for the first layer and stride 1 for
every subsequent one, and an activation after every convolution. -/
def spec_layer_trace (hidden_units : List ℕ) : List LayerOp :=
  (List.range hidden_units.length).flatMap fun i =>
    [LayerOp.conv2d (hidden_units.getD i 0) 3 (if i = 0 then 2 else 1), LayerOp.act]

/-- Fixture for concrete instantiations: a 1×1×1×1 zero image with zero
labels. -/
def sampleBatch : Batch := ⟨⟨1, 1, 1, 1, fun _ _ _ _ => 0⟩, fun _ => 0⟩

/-- Fixture convolution collaborator: the identity on tensors, whatever the
layer configuration. -/
def sampleConv : ℕ → ℕ → ℕ → Tensor4 → Tensor4 := fun _ _ _ t => t

/-- Fixture linear-layer parameters: all zero. -/
def sampleLinear : LinearParams := ⟨fun _ _ => 0, fun _ => 0⟩

/-- Logarithm of a natural number is non-negative (log 0 = 0 by convention). -/
lemma log_nat_nonneg (n : ℕ) : 0 ≤ Real.log (n : ℝ) := by
  rcases Nat.eq_zero_or_pos n with h | h
  · simp [h]
  · exact Real.log_nonneg (Nat.one_le_cast.mpr h)

/-- Folding the conv-stack step over the tail layers (all kernel 3, stride 1)
appends one conv marker and one activation marker per hidden unit, in order. -/
lemma conv_tail_fold (tl : List ℕ) (acc : List LayerOp) :
    (tl.zip ((List.replicate tl.length 3).zip (List.replicate tl.length 1))).foldl
      (fun net p => (net ++ [LayerOp.conv2d p.1 p.2.1 p.2.2]) ++ [LayerOp.act]) acc =
    acc ++ tl.flatMap (fun hs => [LayerOp.conv2d hs 3 1, LayerOp.act]) := by
  induction tl generalizing acc with
  | nil => simp
  | cons a tl ih =>
    simp only [List.length_cons, List.replicate_succ, List.zip_cons_cons,
      List.foldl_cons, List.flatMap_cons]
    rw [ih]
    simp [List.append_assoc]

/-- Rewriting a flatMap over successors of a range. -/
lemma flatMap_map_succ (l : List ℕ) (g : ℕ → List LayerOp) :
    (l.map Nat.succ).flatMap g = l.flatMap fun i => g i.succ := by
  induction l with
  | nil => rfl
  | cons a l ih => simp [ih]

/-- A flatMap over a list equals the flatMap over its positions. -/
lemma flatMap_getD (tl : List ℕ) (g : ℕ → List LayerOp) :
    tl.flatMap g = (List.range tl.length).flatMap fun i => g (tl.getD i 0) := by
  induction tl with
  | nil => rfl
  | cons a tl ih =>
    simp only [List.length_cons, List.range_succ_eq_map, List.flatMap_cons,
      flatMap_map_succ, Nat.succ_eq_add_one, List.getD_cons_zero,
      List.getD_cons_succ]
    rw [ih]

/-- Claim C1: for every Task, `normalizer` is monotonically non-decreasing,
is the identity on [0, 1.5·ln(num_classes)], returns 0 below the interval and
returns the bound above it: out-of-range losses are clamped, never errored. -/
theorem normalizer_clamps (t : ConvTask) (x y : ℝ) :
    (x ≤ y → t.normalizer x ≤ t.normalizer y) ∧
    (0 ≤ x → x ≤ 1.5 * Real.log (t.datasets.num_classes : ℝ) → t.normalizer x = x) ∧
    (x < 0 → t.normalizer x = 0) ∧
    (1.5 * Real.log (t.datasets.num_classes : ℝ) < x →
      t.normalizer x = 1.5 * Real.log (t.datasets.num_classes : ℝ)) := by
  have hB : 0 ≤ 1.5 * Real.log (t.datasets.num_classes : ℝ) :=
    mul_nonneg (by norm_num) (log_nat_nonneg _)
  refine ⟨fun hxy => ?_, fun h0 hx => ?_, fun hx => ?_, fun hx => ?_⟩
  · exact min_le_min (max_le_max hxy le_rfl) le_rfl
  · simp only [ConvTask.normalizer, jnp_clip]
    rw [max_eq_left h0, min_eq_left hx]
  · simp only [ConvTask.normalizer, jnp_clip]
    rw [max_eq_right hx.le, min_eq_left hB]
  · simp only [ConvTask.normalizer, jnp_clip]
    rw [max_eq_left (le_trans hB hx.le), min_eq_right hx.le]

/-- Claim C2 (counterexample): with pool = "bogus" the call to
_cross_entropy_pool_loss itself returns normally, so no configuration error
is raised at model-composition time, contrary to the claim. -/
theorem pool_error_not_at_composition :
    (cross_entropy_pool_loss_call [1] jax_nn_relu none "bogus" 10).isOk = true := rfl

/-- Claim C2 (amended): the call to _cross_entropy_pool_loss succeeds for
every pool value; for pool outside {"avg","max"} the ValueError "pool type
not supported" is raised at the first invocation of the returned function,
while for "avg" and "max" invocation never raises it. -/
theorem pool_error_deferred_to_invocation (hidden_units : List ℕ)
    (activation_fn : Tensor4 → Tensor4) (inits : Option Initializers)
    (pool : String) (num_classes : ℕ) :
    (cross_entropy_pool_loss_call hidden_units activation_fn inits pool
        num_classes).isOk = true ∧
    (pool ≠ "avg" → pool ≠ "max" →
      ∀ conv2d linear batch,
        (cross_entropy_pool_loss hidden_units activation_fn inits pool
            num_classes).apply conv2d linear batch =
          Except.error "pool type not supported") ∧
    (∀ conv2d linear batch,
      ((cross_entropy_pool_loss hidden_units activation_fn inits "avg"
          num_classes).apply conv2d linear batch).isOk = true) ∧
    (∀ conv2d linear batch,
      ((cross_entropy_pool_loss hidden_units activation_fn inits "max"
          num_classes).apply conv2d linear batch).isOk = true) := by
  refine ⟨rfl, fun h1 h2 conv2d linear batch => ?_,
    fun _ _ _ => rfl, fun _ _ _ => rfl⟩
  simp [ModelFn.apply, cross_entropy_pool_loss, fn_apply, h1, h2, Except.map]

/-- Claim C3: the conv stack applies exactly one kernel-3 convolutional layer
per entry of hidden_units, in order, stride 2 for the first layer and 1 for
every subsequent one, with the activation applied after every layer
(including the last). -/
theorem conv_stack_layers (hidden_units : List ℕ) (h : hidden_units ≠ []) :
    layer_trace hidden_units = spec_layer_trace hidden_units := by
  cases hidden_units with
  | nil => exact absurd rfl h
  | cons a tl =>
    have hsrc : layer_trace (a :: tl) =
        [LayerOp.conv2d a 3 2, LayerOp.act] ++
          tl.flatMap (fun hs => [LayerOp.conv2d hs 3 1, LayerOp.act]) := by
      have h2 := conv_tail_fold tl [LayerOp.conv2d a 3 2, LayerOp.act]
      simpa [layer_trace, conv_stack, List.replicate_succ] using h2
    have hspec : spec_layer_trace (a :: tl) =
        [LayerOp.conv2d a 3 2, LayerOp.act] ++
          (List.range tl.length).flatMap
            (fun i => [LayerOp.conv2d (tl.getD i 0) 3 1, LayerOp.act]) := by
      simp [spec_layer_trace, List.range_succ_eq_map, flatMap_map_succ]
    rw [hsrc, hspec, flatMap_getD]

/-- Claim C3 (witness): the trace identity at the factories' configuration
[32, 64, 64]. -/
theorem conv_stack_layers_witness :
    layer_trace [32, 64, 64] = spec_layer_trace [32, 64, 64] :=
  conv_stack_layers [32, 64, 64] (by decide)

/-- Claim C4: for a supported pool value, the function built by
_cross_entropy_pool_loss returns the spec-side pipeline applied to the final
feature map: pooling over both spatial axes (mean for "avg", elementwise max
for "max"), a final linear layer to num_classes logits, one-hot labels
against num_classes categories, per-example softmax cross-entropy, and the
batch mean as a scalar. -/
theorem fn_apply_spec (conv2d : ℕ → ℕ → ℕ → Tensor4 → Tensor4)
    (activation_fn : Tensor4 → Tensor4) (hidden_units : List ℕ)
    (pool : String) (num_classes : ℕ) (linear : LinearParams) (batch : Batch)
    (hpool : pool = "avg" ∨ pool = "max") :
    fn_apply conv2d activation_fn hidden_units pool num_classes linear batch =
      Except.ok (spec_pool_loss pool num_classes linear batch.label
        (conv_stack conv2d activation_fn hidden_units batch.image)) := by
  rcases hpool with h | h <;> subst h
  · rfl
  · rfl

/-- Claim C4 (witness): the pipeline identity at a concrete configuration. -/
theorem fn_apply_spec_witness :
    fn_apply sampleConv jax_nn_relu [1] "avg" 10 sampleLinear sampleBatch =
      Except.ok (spec_pool_loss "avg" 10 sampleLinear sampleBatch.label
        (conv_stack sampleConv jax_nn_relu [1] sampleBatch.image)) :=
  fn_apply_spec sampleConv jax_nn_relu [1] "avg" 10 sampleLinear sampleBatch
    (Or.inl rfl)

/-- Claim C5: each factory fixes hidden widths [32, 64, 64], ReLU activation,
class count 10, and a CIFAR-10 dataset source with batch size 128; Variant A
requests resolution 16×16 and Variant B the native 32×32. -/
theorem factories_config (train : ℕ → Batch) :
    (Conv_Cifar10_16_32x64x64 train).base_model_fn.hidden_units = [32, 64, 64] ∧
    (Conv_Cifar10_16_32x64x64 train).base_model_fn.activation_fn = jax_nn_relu ∧
    (Conv_Cifar10_16_32x64x64 train).base_model_fn.num_classes = 10 ∧
    (Conv_Cifar10_16_32x64x64 train).datasets.name = "cifar10" ∧
    (Conv_Cifar10_16_32x64x64 train).datasets.batch_size = 128 ∧
    (Conv_Cifar10_16_32x64x64 train).datasets.image_size = (16, 16) ∧
    (Conv_Cifar10_32x64x64 train).base_model_fn.hidden_units = [32, 64, 64] ∧
    (Conv_Cifar10_32x64x64 train).base_model_fn.activation_fn = jax_nn_relu ∧
    (Conv_Cifar10_32x64x64 train).base_model_fn.num_classes = 10 ∧
    (Conv_Cifar10_32x64x64 train).datasets.name = "cifar10" ∧
    (Conv_Cifar10_32x64x64 train).datasets.batch_size = 128 ∧
    (Conv_Cifar10_32x64x64 train).datasets.image_size = (32, 32) :=
  ⟨rfl, rfl, rfl, rfl, rfl, rfl, rfl, rfl, rfl, rfl, rfl, rfl⟩

/-- Claim C6: init draws exactly one batch from the train stream (the
iterator advances by exactly one position) and the returned parameters depend
on that batch only through its shape: any task and state whose drawn batch
has the same shape yields identical parameters under the same key. -/
theorem init_draws_one_batch (t : ConvTask)
    (mod_init : ℕ → (ℕ × ℕ × ℕ × ℕ) → ConvParams) (key : ℕ) (s : TaskState) :
    (t.init mod_init key s).2 = ⟨s.iter_pos + 1⟩ ∧
    (∀ t' : ConvTask, ∀ s' : TaskState,
      batchShape (t'.datasets.train s'.iter_pos) =
          batchShape (t.datasets.train s.iter_pos) →
      (t'.init mod_init key s').1 = (t.init mod_init key s).1) := by
  refine ⟨rfl, fun t' s' hshape => ?_⟩
  simp [ConvTask.init, hshape]

/-- Claim C7 (counterexample): a model configured with 5 output classes and a
dataset reporting 10 classes; _ConvTask construction nonetheless succeeds, so
no shape-mismatch error is raised at Task-construction time. -/
theorem construct_ignores_mismatch :
    (cross_entropy_pool_loss [1] jax_nn_relu none "avg" 5).num_classes ≠
      (cifar10_datasets (fun _ => sampleBatch) 128 (16, 16)).num_classes ∧
    (ConvTask.construct (cross_entropy_pool_loss [1] jax_nn_relu none "avg" 5)
        (cifar10_datasets (fun _ => sampleBatch) 128 (16, 16))).isOk = true :=
  ⟨by decide, rfl⟩

/-- Claim C7 (amended): _ConvTask construction performs no consistency check
at all: it always succeeds, merely storing the model function and the
datasets, even when the dataset's num_classes disagrees with the model's
configured output width. -/
theorem construct_always_succeeds (m : ModelFn) (ds : Datasets) :
    ConvTask.construct m ds = Except.ok ⟨m, ds⟩ := rfl

/-- Claim C8: loss is a pure, deterministic function of params, key and data:
its value does not depend on the task state, the state is not mutated, and an
immediately repeated invocation returns the identical value. -/
theorem loss_pure (t : ConvTask) (params : ConvParams) (key : ℕ) (data : Batch)
    (s s' : TaskState) :
    (t.loss params key data s).1 = (t.loss params key data s').1 ∧
    (t.loss params key data s).2 = s ∧
    (t.loss params key data ((t.loss params key data s).2)).1 =
      (t.loss params key data s).1 :=
  ⟨rfl, rfl, rfl⟩

/-- Claim C9: the initializers argument has no effect on the returned
function (it is never consulted), and a falsy value (None or the empty
mapping) is normalized to the empty mapping. -/
theorem initializers_unused (hidden_units : List ℕ)
    (activation_fn : Tensor4 → Tensor4) (i1 i2 : Option Initializers)
    (pool : String) (num_classes : ℕ) :
    (cross_entropy_pool_loss hidden_units activation_fn i1 pool
        num_classes).apply =
      (cross_entropy_pool_loss hidden_units activation_fn i2 pool
          num_classes).apply ∧
    (cross_entropy_pool_loss hidden_units activation_fn none pool
        num_classes).initializers = [] ∧
    (cross_entropy_pool_loss hidden_units activation_fn (some []) pool
        num_classes).initializers = [] :=
  ⟨rfl, rfl, rfl⟩

/-- Claim C10: when pool and num_classes are not supplied,
_cross_entropy_pool_loss defaults to pool = "avg" and num_classes = 10, the
resulting model is valid (invoking it never hits the unsupported-pool error),
and both factories rely on the pool default. -/
theorem pool_num_classes_defaults (hidden_units : List ℕ)
    (activation_fn : Tensor4 → Tensor4) (train : ℕ → Batch) :
    cross_entropy_pool_loss hidden_units activation_fn =
      cross_entropy_pool_loss hidden_units activation_fn none "avg" 10 ∧
    (cross_entropy_pool_loss hidden_units activation_fn).pool = "avg" ∧
    (cross_entropy_pool_loss hidden_units activation_fn).num_classes = 10 ∧
    (∀ conv2d linear batch,
      ((cross_entropy_pool_loss hidden_units activation_fn).apply conv2d
          linear batch).isOk = true) ∧
    (Conv_Cifar10_16_32x64x64 train).base_model_fn.pool = "avg" ∧
    (Conv_Cifar10_32x64x64 train).base_model_fn.pool = "avg" :=
  ⟨rfl, rfl, rfl, fun _ _ _ => rfl, rfl, rfl⟩

end ConvNet
